import Mathlib

/-! # TripBuilder — verification of the GHL field-mapping / sync layer

Shallow embedding of the custom-field codec (`tripbuilder/field_mapping.py`),
the CRM client error path (`tripbuilder/ghl_api.py`), the sync orchestration
(`tripbuilder/services/ghl_sync.py`), the field-map rebuild script
(`.scripts/build_field_maps.py`) and the passenger→trip linker
(`.scripts/link_passengers_to_trips.py`, `.scripts/link_passengers_from_raw_json.py`).

Python's dynamically-typed JSON-ish values are modelled by `PyVal`; Python
floats are modelled as exact rationals (`Rat`); `dict` is modelled as an
insertion-ordered association list with override-on-insert, matching CPython
dict semantics for the operations the code uses.
-/

namespace TripBuilder

/-- A Python value as it occurs in the GHL JSON payloads and model data:
`None`, `bool`, `int`, `float` (modelled as an exact rational), `str`,
`datetime.date` (modelled as a year/month/day triple), `list`, `dict`. -/
inductive PyVal where
  | vnone : PyVal
  | vbool : Bool → PyVal
  | vint : Int → PyVal
  | vfloat : Rat → PyVal
  | vstr : String → PyVal
  | vdate : Nat → Nat → Nat → PyVal
  | vlist : List PyVal → PyVal
  | vdict : List (String × PyVal) → PyVal
  deriving Repr

namespace PyVal

/-- Python truthiness (`bool(value)`), for the values the codec encounters. -/
def truthy : PyVal → Bool
  | .vnone => false
  | .vbool b => b
  | .vint n => n != 0
  | .vfloat q => q != 0
  | .vstr s => s != ""
  | .vdate _ _ _ => true
  | .vlist xs => !xs.isEmpty
  | .vdict kvs => !kvs.isEmpty

/-- Python `is None` identity test. -/
def isNone : PyVal → Bool
  | .vnone => true
  | _ => false

end PyVal

mutual

/-- Structural equality on `PyVal`, used for dict-key comparison.  (It agrees
with Python `==` on all comparisons the code performs — in the code one side
is always a string literal.) -/
def pyBeq : PyVal → PyVal → Bool
  | .vnone, .vnone => true
  | .vbool a, .vbool b => a == b
  | .vint a, .vint b => a == b
  | .vfloat a, .vfloat b => a == b
  | .vstr a, .vstr b => a == b
  | .vdate y m d, .vdate y' m' d' => y == y' && m == m' && d == d'
  | .vlist xs, .vlist ys => pyBeqList xs ys
  | .vdict xs, .vdict ys => pyBeqPairs xs ys
  | _, _ => false

/-- Elementwise equality on Python lists. -/
def pyBeqList : List PyVal → List PyVal → Bool
  | [], [] => true
  | x :: xs, y :: ys => pyBeq x y && pyBeqList xs ys
  | _, _ => false

/-- Pairwise equality on dict entry lists. -/
def pyBeqPairs : List (String × PyVal) → List (String × PyVal) → Bool
  | [], [] => true
  | (k, v) :: xs, (k', v') :: ys => k == k' && pyBeq v v' && pyBeqPairs xs ys
  | _, _ => false

end

/-! ## Python dict model

A CPython `dict` (string-keyed and, for `parse_ghl_custom_fields`'s result,
arbitrary-keyed) is modelled as an insertion-ordered association list:
`d[k] = v` overrides in place when `k` is present and appends otherwise,
`d.get(k)` returns the first (unique) binding or `None`. -/

/-- Python `kvs.get k` on a string-keyed dict, with Python's `None` default. -/
def dictGet (kvs : List (String × PyVal)) (k : String) : PyVal :=
  match kvs.find? (fun kv => kv.1 == k) with
  | some kv => kv.2
  | none => .vnone

/-- Python `k in kvs` on a string-keyed dict. -/
def dictHasKey (kvs : List (String × PyVal)) (k : String) : Bool :=
  kvs.any (fun kv => kv.1 == k)

/-- Python `d[k] = v` on a string-keyed dict: override in place, else append. -/
def dictSet (kvs : List (String × PyVal)) (k : String) (v : PyVal) :
    List (String × PyVal) :=
  if kvs.any (fun kv => kv.1 == k) then
    kvs.map (fun kv => if kv.1 == k then (kv.1, v) else kv)
  else kvs ++ [(k, v)]

/-- A dict whose keys are arbitrary Python values (the shape of
`parse_ghl_custom_fields`'s result, which is keyed by whatever the raw
entry's `id` holds). -/
abbrev PvDict := List (PyVal × PyVal)

/-- Lookup `cf.get k` where `cf` may have non-string keys and `k` is a string. -/
def pvGetStr (cf : PvDict) (k : String) : PyVal :=
  match cf.find? (fun kv => pyBeq kv.1 (.vstr k)) with
  | some kv => kv.2
  | none => .vnone

/-- Insertion `result[field_id] = v` on a `PyVal`-keyed dict. -/
def pvSet (cf : PvDict) (k v : PyVal) : PvDict :=
  if cf.any (fun kv => pyBeq kv.1 k) then
    cf.map (fun kv => if pyBeq kv.1 k then (kv.1, v) else kv)
  else cf ++ [(k, v)]

/-! ## Python string helpers -/

/-- Python `str.strip()`: drop whitespace from both ends. -/
def pyStrip (s : String) : String :=
  ⟨(((s.toList.dropWhile Char.isWhitespace).reverse.dropWhile
      Char.isWhitespace).reverse)⟩

/-- Python `str.lower()` (the strings compared are ASCII). -/
def pyLower (s : String) : String := ⟨s.toList.map Char.toLower⟩

/-- Python `str.upper()`. -/
def pyUpper (s : String) : String := ⟨s.toList.map Char.toUpper⟩

/-- Python `str.capitalize()`: first character uppercased, the rest
lowercased (`'STRING'.capitalize() == 'String'`). -/
def pyCapitalize (s : String) : String :=
  match s.toList with
  | [] => ""
  | c :: rest => ⟨c.toUpper :: rest.map Char.toLower⟩

/-- Python `needle in hay` substring test. -/
def strContainsSub (hay needle : String) : Bool :=
  hay.toList.tails.any (fun t => needle.toList.isPrefixOf t)

/-- Python `s.replace('Z', '+00:00')` (the pattern is a single character, so
it is a character-level splice). -/
def replaceZ (s : String) : String :=
  ⟨s.toList.foldr
    (fun c acc =>
      if c = 'Z' then '+' :: '0' :: '0' :: ':' :: '0' :: '0' :: acc
      else c :: acc) []⟩

/-! ## Calendar dates

`datetime.date` values are (year, month, day) triples; `isoformat` renders
the zero-padded `YYYY-MM-DD` form, and `parseIsoDate` embeds the
`datetime.fromisoformat(...).date()` step of the decoder (accepting an
optional time-of-day part, whose fine grammar is approximated — no theorem
depends on it). -/

/-- Gregorian leap year. -/
def isLeapYear (y : Nat) : Bool :=
  y % 4 == 0 && (y % 100 != 0 || y % 400 == 0)

/-- Days in a month of the proleptic Gregorian calendar. -/
def daysInMonth (y m : Nat) : Nat :=
  if m == 2 then (if isLeapYear y then 29 else 28)
  else if m == 4 || m == 6 || m == 9 || m == 11 then 30
  else 31

/-- The (y, m, d) triples `datetime.date` accepts. -/
def validYmd (y m d : Nat) : Bool :=
  1 ≤ y && y ≤ 9999 && 1 ≤ m && m ≤ 12 && 1 ≤ d && d ≤ daysInMonth y m

/-- The decimal digit character for `n % 10`. -/
def digitChar (n : Nat) : Char := Char.ofNat (48 + n % 10)

/-- Numeric value of a digit character. -/
def charDigit (c : Char) : Nat := c.toNat - 48

/-- Zero-padded two-digit rendering. -/
def pad2 (n : Nat) : List Char := [digitChar (n / 10), digitChar n]

/-- Zero-padded four-digit rendering. -/
def pad4 (n : Nat) : List Char :=
  [digitChar (n / 1000), digitChar (n / 100), digitChar (n / 10), digitChar n]

/-- Python `date(y, m, d).isoformat()`: the `YYYY-MM-DD` string. -/
def isoDate (y m d : Nat) : String :=
  ⟨pad4 y ++ '-' :: (pad2 m ++ '-' :: pad2 d)⟩

/-- Time-of-day tail accepted after the date part (`HH:MM[:SS[.ffffff]]`
with an optional `±HH:MM` offset); approximates `fromisoformat`'s time
grammar, which no theorem depends on. -/
def timePartOk : List Char → Bool
  | h1 :: h2 :: ':' :: n1 :: n2 :: rest =>
    [h1, h2, n1, n2].all Char.isDigit &&
    charDigit h1 * 10 + charDigit h2 < 24 &&
    charDigit n1 * 10 + charDigit n2 < 60 &&
    (rest.isEmpty ||
      (match rest with
       | ':' :: s1 :: s2 :: r =>
         s1.isDigit && s2.isDigit && charDigit s1 * 10 + charDigit s2 < 60 &&
         (r.isEmpty || r.all (fun c => c.isDigit || c == '.' || c == '+' ||
            c == '-' || c == ':'))
       | '+' :: r => r.all (fun c => c.isDigit || c == ':')
       | '-' :: r => r.all (fun c => c.isDigit || c == ':')
       | _ => false))
  | _ => false

/-- Tail allowed after the 10 date characters: nothing, or a `T`/space
separator followed by a time-of-day part. -/
def dateTailOk : List Char → Bool
  | [] => true
  | 'T' :: t => timePartOk t
  | ' ' :: t => timePartOk t
  | _ => false

/-- Embeds `datetime.fromisoformat(s).date()`: parse `YYYY-MM-DD[sep time]`,
validating the calendar date; `none` models the `ValueError` the decoder
catches. -/
def parseIsoDate (s : String) : Option (Nat × Nat × Nat) :=
  match s.toList with
  | y1 :: y2 :: y3 :: y4 :: s1 :: m1 :: m2 :: s2 :: d1 :: d2 :: rest =>
    if s1 == '-' && s2 == '-' &&
        [y1, y2, y3, y4, m1, m2, d1, d2].all Char.isDigit && dateTailOk rest then
      let y := ((charDigit y1 * 10 + charDigit y2) * 10 + charDigit y3) * 10 +
        charDigit y4
      let m := charDigit m1 * 10 + charDigit m2
      let d := charDigit d1 * 10 + charDigit d2
      if validYmd y m d then some (y, m, d) else none
    else none
  | _ => none

/-- The day after a given civil date. -/
def nextDay : Nat × Nat × Nat → Nat × Nat × Nat
  | (y, m, d) =>
    if d < daysInMonth y m then (y, m, d + 1)
    else if m < 12 then (y, m + 1, 1)
    else (y + 1, 1, 1)

/-- Python `date + timedelta(days=n)`. -/
def addDays (ymd : Nat × Nat × Nat) (n : Nat) : Nat × Nat × Nat :=
  n.iterate nextDay ymd

/-- Civil date from days since the Unix epoch (Hinnant's algorithm). -/
def civilFromDays (z : Int) : Nat × Nat × Nat :=
  let z := z + 719468
  let era : Int := z.fdiv 146097
  let doe : Int := z - era * 146097
  let yoe : Int := (doe - doe.fdiv 1460 + doe.fdiv 36524 - doe.fdiv 146096).fdiv 365
  let y : Int := yoe + era * 400
  let doy : Int := doe - (365 * yoe + yoe.fdiv 4 - yoe.fdiv 100)
  let mp : Int := (5 * doy + 2).fdiv 153
  let d : Int := doy - (153 * mp + 2).fdiv 5 + 1
  let m : Int := mp + (if mp < 10 then 3 else -9)
  let y : Int := y + (if m ≤ 2 then 1 else 0)
  (y.toNat, m.toNat, d.toNat)

/-- Embeds `datetime.fromtimestamp(q).date()` for an epoch-seconds value.
(`fromtimestamp` uses the local timezone; this model uses UTC.  It raises
for timestamps outside `date`'s year range, modelled by `none`; no theorem
depends on the value this produces.) -/
def epochSecondsToDate (q : Rat) : Option (Nat × Nat × Nat) :=
  let days : Int := (⌊q⌋ : Int).fdiv 86400
  let ymd := civilFromDays days
  if validYmd ymd.1 ymd.2.1 ymd.2.2 then some ymd else none

/-! ## Python numeric coercions -/

/-- Decimal rendering used by `str(...)` on floats; Python's `repr` of IEEE
doubles is approximated (no theorem depends on this rendering). -/
def floatRepr (q : Rat) : String :=
  if q.den == 1 then toString q.num ++ ".0"
  else toString q.num ++ "/" ++ toString q.den

/-- Python `str(value)` for the values the codec stringifies.  `str` on a
`date` is its ISO form; `list`/`dict` renderings are placeholders (never
stringified by any claim). -/
def pyStr : PyVal → String
  | .vnone => "None"
  | .vbool b => if b then "True" else "False"
  | .vint n => toString n
  | .vfloat q => floatRepr q
  | .vstr s => s
  | .vdate y m d => isoDate y m d
  | .vlist _ => "<list>"
  | .vdict _ => "<dict>"

/-- Parse the body of an unsigned decimal float: digits, an optional point
with fractional digits, an optional exponent. -/
def parseFloatBody (cs : List Char) : Option Rat :=
  let intPart := cs.takeWhile Char.isDigit
  let rest := cs.dropWhile Char.isDigit
  let (fracPart, rest) :=
    match rest with
    | '.' :: r => (r.takeWhile Char.isDigit, r.dropWhile Char.isDigit)
    | _ => ([], rest)
  if intPart.isEmpty && fracPart.isEmpty then none
  else
    let mantissa : Nat := (intPart ++ fracPart).foldl
      (fun acc c => acc * 10 + charDigit c) 0
    let scale : Nat := fracPart.length
    let base : Rat := (mantissa : Rat) / ((10 : Rat) ^ scale)
    match rest with
    | [] => some base
    | 'e' :: r | 'E' :: r =>
      let (sgn, digs) :=
        match r with
        | '+' :: d => (1, d)
        | '-' :: d => (-1, d)
        | d => (1, d)
      if digs.isEmpty || !digs.all Char.isDigit then none
      else
        let e : Nat := digs.foldl (fun acc c => acc * 10 + charDigit c) 0
        some (if sgn == 1 then base * (10 : Rat) ^ e else base / (10 : Rat) ^ e)
    | _ => none

/-- Python `float(s)` on a string: optional surrounding whitespace and sign,
then a decimal float literal; `none` models the `ValueError` the decoder
catches (`inf`/`nan` literals are outside the model). -/
def parseFloat (s : String) : Option Rat :=
  let cs := (pyStrip s).toList
  match cs with
  | '+' :: r => parseFloatBody r
  | '-' :: r => (parseFloatBody r).map Neg.neg
  | r => parseFloatBody r

/-- Python `float(value)`: numbers coerce exactly (floats are modelled as
exact rationals), `bool` is an `int` subclass, strings parse, everything
else raises (`none`). -/
def pyFloat : PyVal → Option Rat
  | .vbool b => some (if b then 1 else 0)
  | .vint n => some (n : Rat)
  | .vfloat q => some q
  | .vstr s => parseFloat s
  | _ => none

/-- Python `int(x)` on a float: truncation toward zero. -/
def pyIntTrunc (q : Rat) : Int := q.num.tdiv (q.den : Int)

/-! ## Field maps (`tripbuilder/field_mapping.py`)

`TRIP_FIELD_MAP` / `PASSENGER_FIELD_MAP`: GHL field key → DB column name,
in source order. -/

def TRIP_FIELD_MAP : List (String × String) :=
  [("opportunity.tripname", "name"),
   ("opportunity.destination", "destination"),
   ("opportunity.tripdescription", "trip_description"),
   ("opportunity.arrivaldate", "arrival_date"),
   ("opportunity.returndate", "return_date"),
   ("opportunity.depositdate", "deposit_date"),
   ("opportunity.finalpayment", "final_payment"),
   ("opportunity.maxpassengers", "max_passengers"),
   ("opportunity.passengercount", "passenger_count"),
   ("opportunity.tripstandardlevelpricing", "trip_standard_level_pricing"),
   ("opportunity.tripvendor", "trip_vendor"),
   ("opportunity.vendorterms", "vendor_terms"),
   ("opportunity.travelbusinessused", "travel_business_used"),
   ("opportunity.travelcategory", "travel_category"),
   ("opportunity.nights", "nights_total"),
   ("opportunity.lodging", "lodging"),
   ("opportunity.lodgingnotes", "lodging_notes"),
   ("opportunity.internaltripdetails", "internal_trip_details"),
   ("opportunity.birthcountry", "birth_country"),
   ("opportunity.passengerid", "passenger_id"),
   ("opportunity.passengername", "passenger_first_name"),
   ("opportunity.passengernumber", "passenger_number"),
   ("opportunity.tripid", "trip_id_custom"),
   ("opportunity.ischild", "is_child")]

def PASSENGER_FIELD_MAP : List (String × String) :=
  [("opportunity.tripname", "trip_name"),
   ("contact.firstname", "firstname"),
   ("contact.lastname", "lastname"),
   ("contact.email", "email"),
   ("contact.phone", "phone"),
   ("opportunity.userroomate", "user_roomate"),
   ("opportunity.roomoccupancy", "room_occupancy"),
   ("opportunity.passportnumber", "passport_number"),
   ("opportunity.passportexpire", "passport_expire"),
   ("opportunity.passportfile", "passport_file"),
   ("opportunity.passportcountry", "passport_country"),
   ("opportunity.healthstate", "health_state"),
   ("opportunity.healthmedicalinfo", "health_medical_info"),
   ("opportunity.primaryphy", "primary_phy"),
   ("opportunity.physicianphone", "physician_phone"),
   ("opportunity.medicationlist", "medication_list"),
   ("opportunity.contact1ulastname", "contact1_ulast_name"),
   ("opportunity.contact1ufirstname", "contact1_ufirst_name"),
   ("opportunity.contact1urelationship", "contact1_urelationship"),
   ("opportunity.contact1umailingaddress", "contact1_umailing_address"),
   ("opportunity.contact1ucity", "contact1_ucity"),
   ("opportunity.contact1uzip", "contact1_uzip"),
   ("opportunity.contact1uemail", "contact1_uemail"),
   ("opportunity.contact1uphone", "contact1_uphone"),
   ("opportunity.contact1umobnumber", "contact1_umob_number"),
   ("opportunity.contact1ustate", "contact1_ustate"),
   ("opportunity.formsubmitteddate", "form_submitted_date"),
   ("opportunity.travelcategorylicense", "travel_category_license"),
   ("opportunity.passengersignature", "passenger_signature"),
   ("opportunity.reservation", "reservation"),
   ("opportunity.mou", "mou"),
   ("opportunity.affidavit", "affidavit")]

/-- Embeds `parse_ghl_custom_fields`: GHL custom-field list → dict keyed by each
entry's `id`, holding the entry's generic `fieldValue` (and only that key —
no type-suffixed key is consulted).  Non-list inputs yield an empty dict,
non-dict entries and entries with a falsy `id` are skipped. -/
def parse_ghl_custom_fields (customFieldsList : PyVal) : PvDict :=
  match customFieldsList with
  | .vlist fields =>
    fields.foldl
      (fun result field =>
        match field with
        | .vdict kvs =>
          let fieldId := dictGet kvs "id"
          let fieldValue := dictGet kvs "fieldValue"
          if fieldId.truthy then pvSet result fieldId fieldValue else result
        | _ => result)
      []
  | _ => []

/-- Columns taking the date branch in `map_trip_custom_fields`. -/
def tripDateColumns : List String :=
  ["arrival_date", "return_date", "deposit_date", "final_payment",
   "start_date", "end_date"]

/-- Columns taking the integer branch in `map_trip_custom_fields`. -/
def tripIntColumns : List String :=
  ["max_passengers", "passenger_number", "passenger_count", "nights_total",
   "trip_id_custom", "current_passengers"]

/-- Columns taking the decimal branch in `map_trip_custom_fields`. -/
def tripDecimalColumns : List String :=
  ["trip_standard_level_pricing", "base_price"]

/-- The date conversion shared by both mappers: an ISO string (after the
`'Z' → '+00:00'` replacement) parses to a date; an `int`/`float` (Python
`bool` included, being an `int` subclass) goes through
`fromtimestamp(value / 1000)`; anything else falls through with no
assignment.  `none` means the `except: pass` left the column unset. -/
def dateFromValue : PyVal → Option (Nat × Nat × Nat)
  | .vstr s => parseIsoDate (replaceZ s)
  | .vbool b => epochSecondsToDate ((if b then (1 : Rat) else 0) / 1000)
  | .vint n => epochSecondsToDate ((n : Rat) / 1000)
  | .vfloat q => epochSecondsToDate (q / 1000)
  | _ => none

/-- One iteration of the `map_trip_custom_fields` loop, for the pair
`(field_key, column_name)`. -/
def tripFieldStep (customFields : PvDict) (mapped : List (String × PyVal))
    (p : String × String) : List (String × PyVal) :=
  if (pvGetStr customFields p.1).isNone then mapped
  else if tripDateColumns.contains p.2 then
    match dateFromValue (pvGetStr customFields p.1) with
    | some (y, m, d) => dictSet mapped p.2 (.vdate y m d)
    | none => mapped
  else if tripIntColumns.contains p.2 then
    if (pvGetStr customFields p.1).truthy then
      match pyFloat (pvGetStr customFields p.1) with
      | some q => dictSet mapped p.2 (.vint (pyIntTrunc q))
      | none => mapped
    else dictSet mapped p.2 .vnone
  else if tripDecimalColumns.contains p.2 then
    if (pvGetStr customFields p.1).truthy then
      match pyFloat (pvGetStr customFields p.1) with
      | some q => dictSet mapped p.2 (.vfloat q)
      | none => mapped
    else dictSet mapped p.2 .vnone
  else if p.2 == "is_child" then
    match pvGetStr customFields p.1 with
    | .vbool b => dictSet mapped p.2 (.vbool b)
    | .vstr s => dictSet mapped p.2
        (.vbool (["true", "yes", "1"].contains (pyLower s)))
    | _ => mapped
  else
    if (pvGetStr customFields p.1).truthy then
      dictSet mapped p.2 (.vstr (pyStr (pvGetStr customFields p.1)))
    else dictSet mapped p.2 .vnone

/-- Embeds `map_trip_custom_fields`: GHL field-key dict → Trip column dict. -/
def map_trip_custom_fields (customFields : PvDict) : List (String × PyVal) :=
  TRIP_FIELD_MAP.foldl (tripFieldStep customFields) []

/-- Columns taking the date branch in `map_passenger_custom_fields`. -/
def passengerDateColumns : List String :=
  ["passport_expire", "form_submitted_date", "date_of_birth"]

/-- Columns taking the boolean branch in `map_passenger_custom_fields`. -/
def passengerBoolColumns : List String :=
  ["registration_completed", "documents_completed"]

/-- One iteration of the `map_passenger_custom_fields` loop. -/
def passengerFieldStep (customFields : PvDict)
    (mapped : List (String × PyVal)) (p : String × String) :
    List (String × PyVal) :=
  if (pvGetStr customFields p.1).isNone then mapped
  else if passengerDateColumns.contains p.2 then
    match dateFromValue (pvGetStr customFields p.1) with
    | some (y, m, d) => dictSet mapped p.2 (.vdate y m d)
    | none => mapped
  else if passengerBoolColumns.contains p.2 then
    match pvGetStr customFields p.1 with
    | .vbool b => dictSet mapped p.2 (.vbool b)
    | .vstr s => dictSet mapped p.2
        (.vbool (["true", "yes", "1"].contains (pyLower s)))
    | _ => mapped
  else
    if (pvGetStr customFields p.1).truthy then
      dictSet mapped p.2 (.vstr (pyStr (pvGetStr customFields p.1)))
    else dictSet mapped p.2 .vnone

/-- Embeds `map_passenger_custom_fields`: GHL field-key dict → Passenger column
dict. -/
def map_passenger_custom_fields (customFields : PvDict) :
    List (String × PyVal) :=
  PASSENGER_FIELD_MAP.foldl (passengerFieldStep customFields) []

/-- The value conversion inside `create_ghl_custom_fields_dict` (and,
identically, inside `TwoWaySyncService.push_trip_to_ghl` /
`push_passenger_to_ghl`): dates become ISO strings, booleans become the
lowercase tokens, every other value passes through unchanged. -/
def encodeOutboundValue : PyVal → PyVal
  | .vdate y m d => .vstr (isoDate y m d)
  | .vbool b => .vstr (if b then "true" else "false")
  | v => v

/-- The reversed map as a dict, embedding the comprehension that swaps
each pair of `field_map` (later entries override earlier ones). -/
def reverseFieldMap (fieldMap : List (String × String)) :
    List (String × PyVal) :=
  fieldMap.foldl (fun acc p => dictSet acc p.2 (.vstr p.1)) []

/-- Embeds `create_ghl_custom_fields_dict`: model-column dict → GHL field-key dict.
Columns with no outbound mapping (falsy reverse lookup) and `None` values
are omitted; other values go through `encodeOutboundValue`. -/
def create_ghl_custom_fields_dict (modelData : List (String × PyVal))
    (fieldMap : List (String × String)) : List (String × PyVal) :=
  let reverseMap := reverseFieldMap fieldMap
  modelData.foldl
    (fun out p =>
      let fieldKey := dictGet reverseMap p.1
      if fieldKey.truthy && !p.2.isNone then
        match fieldKey with
        | .vstr k => dictSet out k (encodeOutboundValue p.2)
        | _ => out
      else out)
    []

/-- Embeds `get_field_value_by_type` (from
`.scripts/link_passengers_from_raw_json.py`): read the entry's declared
`type`, try the type-suffixed key `fieldValue<Type>` first, fall back to the
generic `fieldValue`, else `None`. -/
def get_field_value_by_type (fieldData : List (String × PyVal)) : PyVal :=
  let fieldType :=
    match dictGet fieldData "type" with
    | .vstr s => pyUpper s
    | .vnone => ""
    | v => pyUpper (pyStr v)
  let typedKey := "fieldValue" ++ pyCapitalize fieldType
  if dictHasKey fieldData typedKey then dictGet fieldData typedKey
  else if dictHasKey fieldData "fieldValue" then dictGet fieldData "fieldValue"
  else .vnone

/-! ## CRM client error path (`tripbuilder/ghl_api.py`, `_make_request`)

An HTTP attempt either raises a `requests.RequestException` (connection or
timeout failure) or yields a response, modelled by its status code, its
body text, and the result of `response.json()` (`some` parsed value when
the body is valid JSON, `none` when `.json()` raises).  Since requests
2.27, the `JSONDecodeError` that `.json()` raises on a malformed body is a
`requests.RequestException` subclass, so it is caught by the same handler
as network failures. -/

structure HttpResponse where
  statusCode : Nat
  text : String
  jsonBody : Option PyVal
  deriving Repr

inductive HttpOutcome where
  /-- Case where `session.request` itself raised (connection error, timeout). -/
  | requestFailure (msg : String) : HttpOutcome
  | response (r : HttpResponse) : HttpOutcome

/-- The `GoHighLevelAPIError` payload: message, optional HTTP status,
optional parsed body. -/
structure GhlApiError where
  message : PyVal
  statusCode : Option Nat
  responseData : Option PyVal
  deriving Repr

/-- Message text of the `JSONDecodeError` raised while re-parsing a
malformed error body (library-generated; the exact text is irrelevant to
every theorem). -/
def jsonDecodeFailureMsg : String := "Expecting value"

/-- Embeds `GoHighLevelAPI._make_request`, from the moment the HTTP attempt
resolves: 2xx success statuses return the decoded body (or a success
sentinel); any other status builds an error message from the parsed body
(falling back to appending the raw text) and raises `GoHighLevelAPIError`
— but the raise line re-evaluates `response.json()` for `response_data`,
and on a non-empty non-JSON body that re-parse raises a
`RequestException`, which the outer handler converts to a status-less
`Network error` instead.  (The `"message" in error_data` membership test is
modelled only for dict bodies; for a non-dict JSON body the default message
is kept, an approximation no theorem depends on.) -/
def makeRequest (out : HttpOutcome) : Except GhlApiError PyVal :=
  match out with
  | .requestFailure msg =>
    .error ⟨.vstr ("Network error: " ++ msg), none, none⟩
  | .response r =>
    if r.statusCode == 200 || r.statusCode == 201 || r.statusCode == 202 ||
        r.statusCode == 204 then
      if r.text ≠ "" then
        match r.jsonBody with
        | some j => .ok j
        | none => .ok (.vdict [("success", .vbool true),
            ("content", .vstr r.text)])
      else .ok (.vdict [("success", .vbool true)])
    else
      let defaultMsg : PyVal :=
        .vstr ("API request failed with status " ++ toString r.statusCode)
      let errMsg : PyVal :=
        match r.jsonBody with
        | some (.vdict kvs) =>
          if dictHasKey kvs "message" then dictGet kvs "message"
          else if dictHasKey kvs "error" then dictGet kvs "error"
          else defaultMsg
        | some _ => defaultMsg
        | none =>
          .vstr ("API request failed with status " ++ toString r.statusCode ++
            ": " ++ r.text)
      if r.text ≠ "" then
        match r.jsonBody with
        | some j => .error ⟨errMsg, some r.statusCode, some j⟩
        | none =>
          .error ⟨.vstr ("Network error: " ++ jsonDecodeFailureMsg), none,
            none⟩
      else .error ⟨errMsg, some r.statusCode, none⟩

/-! ## Passenger→trip linker (`.scripts/link_passengers_to_trips.py`) -/

/-- A `Trip` row as the linker sees it: surrogate id and nullable name. -/
structure LinkTrip where
  id : Nat
  name : Option String
  deriving Repr, DecidableEq

/-- Truthiness of `trip.name` (`if trip.name and ...`). -/
def tripNameTruthy (tr : LinkTrip) : Bool :=
  match tr.name with
  | some s => s ≠ ""
  | none => false

/-- Lowercased `trip.name` (only evaluated under `tripNameTruthy`). -/
def tripNameLower (tr : LinkTrip) : String :=
  pyLower (tr.name.getD "")

/-- Embeds `find_matching_trip`: falsy input → no match; stripped name under 3
characters → no match; else first case-insensitive exact match, else first
trip whose name contains the string, else first trip whose name is
contained in the string, else no match. -/
def find_matching_trip (tripName : PyVal) (allTrips : List LinkTrip) :
    Option LinkTrip :=
  if !tripName.truthy then none
  else if (pyStrip (pyStr tripName)).length < 3 then none
  else
    match allTrips.find? (fun tr => tripNameTruthy tr &&
        tripNameLower tr == pyLower (pyStrip (pyStr tripName))) with
    | some tr => some tr
    | none =>
      match allTrips.find? (fun tr => tripNameTruthy tr &&
          strContainsSub (tripNameLower tr)
            (pyLower (pyStrip (pyStr tripName)))) with
      | some tr => some tr
      | none =>
        allTrips.find? (fun tr => tripNameTruthy tr &&
          strContainsSub (pyLower (pyStrip (pyStr tripName)))
            (tripNameLower tr))

/-! ## Field-map rebuild (`.scripts/build_field_maps.py`) -/

/-- A CRM custom-field descriptor as the rebuild script reads it (absent
`id`/`fieldKey` modelled by `""`, which is falsy exactly like the `None`
that `.get` returns). -/
structure FieldDescriptor where
  id : String
  fieldKey : String
  name : String
  dataType : String
  deriving Repr, DecidableEq

/-- A `field_maps` row. -/
structure FieldMapRow where
  ghlKey : String
  fieldKey : String
  tableColumn : String
  tablename : String
  dataType : String
  deriving Repr, DecidableEq

/-- Embeds `FIELD_KEY_TO_TABLE`: the hand-maintained static table, field key →
(table, column, data type), in source order. -/
def FIELD_KEY_TO_TABLE : List (String × String × String × String) :=
  [("opportunity.birth_country", "trips", "birth_country", "string"),
   ("opportunity.passenger_id", "trips", "passenger_id", "string"),
   ("opportunity.passenger_name", "trips", "passenger_first_name", "string"),
   ("opportunity.passenger_number", "trips", "passenger_number", "integer"),
   ("opportunity.trip_id", "trips", "trip_id_custom", "integer"),
   ("opportunity.trip_name", "trips", "trip_name", "string"),
   ("opportunity.nights", "trips", "nights_total", "integer"),
   ("opportunity.arrival_date", "trips", "arrival_date", "date"),
   ("opportunity.return_date", "trips", "return_date", "date"),
   ("opportunity.max_passengers", "trips", "max_passengers", "integer"),
   ("opportunity.travel_category", "trips", "travel_category", "string"),
   ("opportunity.trip_standard_level_pricing", "trips",
    "trip_standard_level_pricing", "decimal"),
   ("opportunity.passenger_count", "trips", "passenger_count", "integer"),
   ("opportunity.lodging", "trips", "lodging", "string"),
   ("opportunity.lodging_notes", "trips", "lodging_notes", "string"),
   ("opportunity.deposit_date", "trips", "deposit_date", "date"),
   ("opportunity.final_payment", "trips", "final_payment", "date"),
   ("opportunity.trip_description", "trips", "trip_description", "string"),
   ("opportunity.trip_vendor", "trips", "trip_vendor", "string"),
   ("opportunity.vendor_terms", "trips", "vendor_terms", "string"),
   ("opportunity.travel_business_used", "trips", "travel_business_used",
    "string"),
   ("opportunity.internal_trip_details", "trips", "internal_trip_details",
    "string"),
   ("opportunity.is_child", "trips", "is_child", "boolean"),
   ("opportunity.user_roomate", "passengers", "user_roomate", "string"),
   ("opportunity.room_occupancy", "passengers", "room_occupancy", "string"),
   ("opportunity.passport_number", "passengers", "passport_number", "string"),
   ("opportunity.passport_expire", "passengers", "passport_expire", "date"),
   ("opportunity.passport_file", "passengers", "passport_file", "string"),
   ("opportunity.passport_country", "passengers", "passport_country",
    "string"),
   ("opportunity.health_state", "passengers", "health_state", "string"),
   ("opportunity.health_medical_info", "passengers", "health_medical_info",
    "string"),
   ("opportunity.primary_phy", "passengers", "primary_phy", "string"),
   ("opportunity.physician_phone", "passengers", "physician_phone", "string"),
   ("opportunity.medication_list", "passengers", "medication_list", "string"),
   ("opportunity.contact1_ulast_name", "passengers", "contact1_ulast_name",
    "string"),
   ("opportunity.contact1_ufirst_name", "passengers", "contact1_ufirst_name",
    "string"),
   ("opportunity.contact1_urelationship", "passengers",
    "contact1_urelationship", "string"),
   ("opportunity.contact1_umailing_address", "passengers",
    "contact1_umailing_address", "string"),
   ("opportunity.contact1_ucity", "passengers", "contact1_ucity", "string"),
   ("opportunity.contact1_uzip", "passengers", "contact1_uzip", "string"),
   ("opportunity.contact1_uemail", "passengers", "contact1_uemail", "string"),
   ("opportunity.contact1_uphone", "passengers", "contact1_uphone", "string"),
   ("opportunity.contact1_umob_number", "passengers", "contact1_umob_number",
    "string"),
   ("opportunity.contact1_ustate", "passengers", "contact1_ustate", "string"),
   ("opportunity.form_submitted_date", "passengers", "form_submitted_date",
    "date"),
   ("opportunity.travel_category_license", "passengers",
    "travel_category_license", "string"),
   ("opportunity.passenger_signature", "passengers", "passenger_signature",
    "string"),
   ("opportunity.reservation", "passengers", "reservation", "string"),
   ("opportunity.mou", "passengers", "mou", "string"),
   ("opportunity.affidavit", "passengers", "affidavit", "string")]

/-- Static-table lookup (`field_key in FIELD_KEY_TO_TABLE`). -/
def lookupStaticTable (fieldKey : String) :
    Option (String × String × String) :=
  match FIELD_KEY_TO_TABLE.find? (fun e => e.1 == fieldKey) with
  | some e => some e.2
  | none => none

/-- The build loop of `.scripts/build_field_maps.py` `main` (step 4):
descriptors with a falsy `id` or `fieldKey` are skipped; descriptors whose
key is in the static table produce one `field_maps` row; the rest are
collected as "missing mappings" for the operator report. -/
def buildFieldMapStep (acc : List FieldMapRow × List FieldDescriptor)
    (fd : FieldDescriptor) : List FieldMapRow × List FieldDescriptor :=
  if fd.id == "" || fd.fieldKey == "" then acc
  else
    match lookupStaticTable fd.fieldKey with
    | some (tbl, col, dt) =>
      (acc.1 ++ [⟨fd.id, fd.fieldKey, col, tbl, dt⟩], acc.2)
    | none => (acc.1, acc.2 ++ [fd])

def buildFieldMaps (descriptors : List FieldDescriptor) :
    List FieldMapRow × List FieldDescriptor :=
  descriptors.foldl buildFieldMapStep ([], [])

/-- One full registry-rebuild run (steps 3–4): `FieldMap.query.delete()`
clears every existing row, then the build loop repopulates from the
descriptor list; the prior table contents are discarded entirely. -/
def rebuildFieldMaps (_priorRows : List FieldMapRow)
    (descriptors : List FieldDescriptor) :
    List FieldMapRow × List FieldDescriptor :=
  buildFieldMaps descriptors

/-! ## Trip defaults in the bulk pull
(`GHLSyncService.sync_trip_opportunities`, lines 274–283) -/

/-- The Trip fields the default-filling block touches.  The record as built
by `Trip.from_ghl_opportunity` / updated by `update_from_ghl` (those
constructors are not part of this repository's sources; the theorems
quantify over every possible pre-default state). -/
structure TripRec where
  startDate : Option (Nat × Nat × Nat)
  endDate : Option (Nat × Nat × Nat)
  maxPassengers : Option Int
  deriving Repr, DecidableEq

/-- Python truthiness of an optional date (`date` objects are always
truthy). -/
def optDateTruthy : Option (Nat × Nat × Nat) → Bool
  | some _ => true
  | none => false

/-- Python truthiness of a nullable integer column (`None` and `0` are both
falsy). -/
def optIntTruthy : Option Int → Bool
  | some n => n != 0
  | none => false

/-- The `# Ensure required fields have defaults` block: falsy `start_date`
becomes today, falsy `end_date` becomes the (possibly just defaulted)
`start_date + timedelta(days=7)`, falsy `max_passengers` becomes 10. -/
def applyTripDefaults (today : Nat × Nat × Nat) (t : TripRec) : TripRec :=
  let t := if optDateTruthy t.startDate then t
    else { t with startDate := some today }
  let t := if optDateTruthy t.endDate then t
    else { t with endDate := some (addDays (t.startDate.getD today) 7) }
  if optIntTruthy t.maxPassengers then t else { t with maxPassengers := some 10 }

/-- One page of the bulk trip pull, after each record was built from the
raw opportunity: every record passes through the defaults block before
being added to the session and committed with the page. -/
def processTripPage (today : Nat × Nat × Nat) (page : List TripRec) :
    List TripRec :=
  page.map (applyTripDefaults today)

/-! ## Full-sync orchestration (`GHLSyncService.perform_full_sync`)

Each stage is represented by the outcome of its CRM fetches: `Except`
errors model raised exceptions.  `sync_contacts`, `sync_trip_opportunities`
and `sync_passenger_opportunities` wrap their whole fetch/commit loop in
`try/except` that prints and `break`s, so they never propagate; pages are
committed one at a time.  `sync_pipelines` and `sync_custom_fields` have no
handler, so their exceptions reach `perform_full_sync`'s handler, which
marks the sync log `failed`, stores the message and re-raises. -/

structure FullSyncEnv where
  /-- Outcome of `sync_pipelines`: (pipelines, stages) counts, or a raised
  transport error. -/
  pipelinesFetch : Except String (Nat × Nat)
  /-- Outcome of `sync_custom_fields`: (groups, fields) counts, or a raised
  transport error. -/
  customFieldsFetch : Except String (Nat × Nat)
  /-- Successive `sync_contacts` page fetches: `ok n` is a committed page of
  `n` contacts, `error e` a transport error raised by that fetch. -/
  contactPages : List (Except String Nat)
  /-- Successive `sync_trip_opportunities` page fetches. -/
  tripPages : List (Except String Nat)
  /-- Outcome of `VendorSyncService.sync_vendors_from_ghl` (non-critical:
  caught in `perform_full_sync`). -/
  vendorsFetch : Except String Nat
  /-- Successive `sync_passenger_opportunities` page fetches. -/
  passengerPages : List (Except String Nat)

/-- Counts of records committed to each table (commits happen per page and
are never rolled back by later failures). -/
structure SyncDb where
  pipelines : Nat := 0
  stages : Nat := 0
  groups : Nat := 0
  fields : Nat := 0
  contacts : Nat := 0
  trips : Nat := 0
  vendors : Nat := 0
  passengers : Nat := 0
  deriving Repr, DecidableEq

/-- The sync-log row `perform_full_sync` writes. -/
structure SyncLogRec where
  syncType : String
  status : String
  recordsSynced : Nat
  errors : List String
  deriving Repr, DecidableEq

/-- A paginated pull loop whose body catches every exception, prints and
`break`s (`sync_contacts` lines 148–216, and the same shape in the two
opportunity pulls): pages before the first error are committed and
retained; the error itself is swallowed and the loop returns the running
count. -/
def pagedPullLoop (pages : List (Except String Nat)) (committed : Nat) :
    Nat :=
  match pages with
  | [] => committed
  | .ok n :: rest => pagedPullLoop rest (committed + n)
  | .error _ :: _ => committed

/-- Embeds `sync_contacts`: commits each fetched page, swallows any exception.
Returns the updated store and the count it reports. -/
def sync_contacts (db : SyncDb) (pages : List (Except String Nat)) :
    SyncDb × Nat :=
  let n := pagedPullLoop pages 0
  ({ db with contacts := db.contacts + n }, n)

/-- Embeds `sync_trip_opportunities` at orchestration granularity: same
catch-and-break shape as `sync_contacts`. -/
def sync_trip_opportunities (db : SyncDb)
    (pages : List (Except String Nat)) : SyncDb × Nat :=
  let n := pagedPullLoop pages 0
  ({ db with trips := db.trips + n }, n)

/-- Embeds `sync_passenger_opportunities` at orchestration granularity: same
catch-and-break shape. -/
def sync_passenger_opportunities (db : SyncDb)
    (pages : List (Except String Nat)) : SyncDb × Nat :=
  let n := pagedPullLoop pages 0
  ({ db with passengers := db.passengers + n }, n)

/-- Embeds `perform_full_sync`: creates an `in_progress` sync log, runs the stages
in order (pipelines/stages, custom fields, contacts, trips, vendors —
caught non-critically —, passengers), then marks the log `success`; any
exception that reaches the orchestration handler marks the log `failed`,
stores the message and re-raises.  Returns the store, the final log row and
the call's result (`error` = re-raised exception). -/
def perform_full_sync (env : FullSyncEnv) (db : SyncDb) :
    SyncDb × SyncLogRec × Except String SyncDb :=
  let log0 : SyncLogRec :=
    { syncType := "full", status := "in_progress", recordsSynced := 0,
      errors := [] }
  match env.pipelinesFetch with
  | .error e =>
    (db, { log0 with status := "failed", errors := [e] }, .error e)
  | .ok (p, s) =>
    let db := { db with pipelines := db.pipelines + p, stages := db.stages + s }
    match env.customFieldsFetch with
    | .error e =>
      (db, { log0 with status := "failed", errors := [e] }, .error e)
    | .ok (g, f) =>
      let db := { db with groups := db.groups + g, fields := db.fields + f }
      let (db, contacts) := sync_contacts db env.contactPages
      let (db, trips) := sync_trip_opportunities db env.tripPages
      let vendors := match env.vendorsFetch with
        | .ok v => v
        | .error _ => 0
      let db := { db with vendors := db.vendors + vendors }
      let (db, passengers) := sync_passenger_opportunities db env.passengerPages
      let total := p + s + g + f + contacts + trips + passengers + vendors
      (db, { log0 with status := "success", recordsSynced := total }, .ok db)

/-! ## Compositions used by the statements -/

/-- The decode direction for trips as the pull paths run it
(`two_way_sync.py` lines 367–368): raw `customFields` list →
`parse_ghl_custom_fields` → `map_trip_custom_fields`. -/
def decodeTripFields (raw : PyVal) : List (String × PyVal) :=
  map_trip_custom_fields (parse_ghl_custom_fields raw)

/-- View an outbound field-key dict as the custom-fields dict the decoder
reads (same string keys, now compared as Python values). -/
def wireToPvDict (w : List (String × PyVal)) : PvDict :=
  w.map (fun p => (.vstr p.1, p.2))

/-- Encode one trip column into the outbound payload and decode it back
(the round-trip of C5). -/
def tripRoundTrip (col : String) (v : PyVal) : List (String × PyVal) :=
  map_trip_custom_fields
    (wireToPvDict (create_ghl_custom_fields_dict [(col, v)] TRIP_FIELD_MAP))

/-- Total size of the `ok` pages before the first failed fetch — the
records a catch-and-break pull loop leaves committed. -/
def committedPagesTotal : List (Except String Nat) → Nat
  | [] => 0
  | .ok n :: rest => n + committedPagesTotal rest
  | .error _ :: _ => 0

/-! ## Lemmas: dicts, folds, and singleton evaluation -/

theorem toList_mk (l : List Char) : (⟨l⟩ : String).toList = l := rfl

theorem pvGetStr_singleton (a b : String) (v : PyVal) :
    pvGetStr [(.vstr a, v)] b = if a == b then v else .vnone := by
  by_cases h : a = b
  · subst h; simp [pvGetStr, List.find?, pyBeq]
  · have hb : (a == b) = false := by simpa using h
    simp [pvGetStr, List.find?, pyBeq, hb]

theorem foldl_skip_all {α β : Type} (step : α → β → α) (l : List β) (a : α)
    (h : ∀ b ∈ l, ∀ x, step x b = x) : l.foldl step a = a := by
  induction l generalizing a with
  | nil => rfl
  | cons hd tl ih =>
    rw [List.foldl_cons, h hd (List.mem_cons_self _ _),
      ih _ (fun b hb x => h b (List.mem_cons_of_mem _ hb) x)]

theorem foldl_eq_single_step {α β : Type} (step : α → β → α) :
    ∀ (l : List β) (b : β) (a : α), l.Nodup → b ∈ l →
      (∀ b' ∈ l, b' ≠ b → ∀ x, step x b' = x) → l.foldl step a = step a b := by
  intro l
  induction l with
  | nil => intro b a _ hmem _; cases hmem
  | cons hd tl ih =>
    intro b a hnd hmem hskip
    rcases List.mem_cons.mp hmem with rfl | hbtl
    · rw [List.foldl_cons]
      exact foldl_skip_all step tl (step a b) (fun b' hb' x =>
        hskip b' (List.mem_cons_of_mem _ hb')
          (fun hEq => (List.nodup_cons.mp hnd).1 (hEq ▸ hb')) x)
    · have hhd : hd ≠ b := fun hEq => (List.nodup_cons.mp hnd).1 (hEq ▸ hbtl)
      rw [List.foldl_cons, hskip hd (List.mem_cons_self _ _) hhd a]
      exact ih b a (List.nodup_cons.mp hnd).2 hbtl
        (fun b' hb' hne x => hskip b' (List.mem_cons_of_mem _ hb') hne x)

theorem tripFieldStep_of_miss (cf : PvDict) (acc : List (String × PyVal))
    (p : String × String) (h : pvGetStr cf p.1 = .vnone) :
    tripFieldStep cf acc p = acc := by
  simp [tripFieldStep, h, PyVal.isNone]

theorem passengerFieldStep_of_miss (cf : PvDict)
    (acc : List (String × PyVal)) (p : String × String)
    (h : pvGetStr cf p.1 = .vnone) : passengerFieldStep cf acc p = acc := by
  simp [passengerFieldStep, h, PyVal.isNone]

theorem map_trip_singleton (fk col : String) (v : PyVal)
    (hmem : (fk, col) ∈ TRIP_FIELD_MAP) :
    map_trip_custom_fields [(.vstr fk, v)] =
      tripFieldStep [(.vstr fk, v)] [] (fk, col) := by
  refine foldl_eq_single_step _ _ _ _ (by decide) hmem ?_
  intro p hp hne x
  apply tripFieldStep_of_miss
  rw [pvGetStr_singleton]
  have hk : fk ≠ p.1 := by
    intro hEq
    exact hne (List.inj_on_of_nodup_map
      (show (TRIP_FIELD_MAP.map Prod.fst).Nodup by decide) hp hmem hEq.symm ▸
        rfl)
  simp [hk]

theorem map_passenger_singleton (fk col : String) (v : PyVal)
    (hmem : (fk, col) ∈ PASSENGER_FIELD_MAP) :
    map_passenger_custom_fields [(.vstr fk, v)] =
      passengerFieldStep [(.vstr fk, v)] [] (fk, col) := by
  refine foldl_eq_single_step _ _ _ _ (by decide) hmem ?_
  intro p hp hne x
  apply passengerFieldStep_of_miss
  rw [pvGetStr_singleton]
  have hk : fk ≠ p.1 := by
    intro hEq
    exact hne (List.inj_on_of_nodup_map
      (show (PASSENGER_FIELD_MAP.map Prod.fst).Nodup by decide) hp hmem
        hEq.symm ▸ rfl)
  simp [hk]

/-! ## Lemmas: ISO date rendering and parsing -/

theorem digitChar_facts (k : Nat) :
    charDigit (digitChar k) = k % 10 ∧ (digitChar k).isDigit = true ∧
      digitChar k ≠ 'Z' := by
  have h : k % 10 < 10 := Nat.mod_lt _ (by omega)
  unfold digitChar charDigit
  generalize k % 10 = r at h ⊢
  interval_cases r <;> exact ⟨by decide, by decide, by decide⟩

theorem daysInMonth_le (y m : Nat) : daysInMonth y m ≤ 31 := by
  unfold daysInMonth
  repeat' split
  all_goals omega

theorem replaceZ_of_noZ (s : String) (h : ∀ c ∈ s.toList, c ≠ 'Z') :
    replaceZ s = s := by
  unfold replaceZ
  have hfold : ∀ (l : List Char), (∀ c ∈ l, c ≠ 'Z') →
      l.foldr (fun c acc =>
        if c = 'Z' then '+' :: '0' :: '0' :: ':' :: '0' :: '0' :: acc
        else c :: acc) [] = l := by
    intro l hl
    induction l with
    | nil => rfl
    | cons hd tl ih =>
      rw [List.foldr_cons, if_neg (hl hd (List.mem_cons_self _ _)),
        ih (fun c hc => hl c (List.mem_cons_of_mem _ hc))]
  rw [hfold s.toList h]
  rfl

theorem isoDate_noZ (y m d : Nat) :
    ∀ c ∈ (isoDate y m d).toList, c ≠ 'Z' := by
  intro c hc
  unfold isoDate pad4 pad2 at hc
  rw [toList_mk] at hc
  simp only [List.cons_append, List.nil_append, List.mem_cons,
    List.not_mem_nil, or_false] at hc
  rcases hc with rfl | rfl | rfl | rfl | rfl | rfl | rfl | rfl | rfl | rfl
  all_goals first
    | exact (digitChar_facts _).2.2
    | decide

theorem parseIsoDate_isoDate (y m d : Nat) (h : validYmd y m d = true) :
    parseIsoDate (isoDate y m d) = some (y, m, d) := by
  have h' := h
  unfold validYmd at h'
  simp only [Bool.and_eq_true, decide_eq_true_eq] at h'
  obtain ⟨⟨⟨⟨⟨hy1, hy2⟩, hm1⟩, hm2⟩, hd1⟩, hd2⟩ := h'
  have hdm := daysInMonth_le y m
  have hcd : ∀ k, charDigit (digitChar k) = k % 10 :=
    fun k => (digitChar_facts k).1
  have hdig : ∀ k, (digitChar k).isDigit = true :=
    fun k => (digitChar_facts k).2.1
  unfold isoDate pad4 pad2 parseIsoDate
  simp only [toList_mk, List.cons_append, List.nil_append]
  simp only [List.all_cons, List.all_nil, hdig, Bool.and_true, Bool.true_and,
    dateTailOk, beq_self_eq_true, if_true, hcd]
  have hyv : ((y / 1000 % 10 * 10 + y / 100 % 10) * 10 + y / 10 % 10) * 10 +
      y % 10 = y := by omega
  have hmv : m / 10 % 10 * 10 + m % 10 = m := by omega
  have hdv : d / 10 % 10 * 10 + d % 10 = d := by omega
  rw [hyv, hmv, hdv, if_pos h]

theorem dateFromValue_isoDate (y m d : Nat) (h : validYmd y m d = true) :
    dateFromValue (.vstr (isoDate y m d)) = some (y, m, d) := by
  simp only [dateFromValue]
  rw [replaceZ_of_noZ _ (isoDate_noZ y m d), parseIsoDate_isoDate y m d h]

/-! ## Lemmas: keys produced by the decoder -/

theorem mem_keys_dictSet (d : List (String × PyVal)) (k : String) (v : PyVal)
    (k' : String) (h : k' ∈ (dictSet d k v).map Prod.fst) :
    k' = k ∨ k' ∈ d.map Prod.fst := by
  unfold dictSet at h
  split at h
  · right
    have heq : ((d.map fun kv => if kv.1 == k then (kv.1, v) else kv).map
        Prod.fst) = d.map Prod.fst := by
      rw [List.map_map]
      exact List.map_congr_left (fun kv _ => by
        simp only [Function.comp_apply]; split <;> rfl)
    rwa [heq] at h
  · rw [List.map_append] at h
    rcases List.mem_append.mp h with h' | h'
    · exact Or.inr h'
    · simp only [List.map_cons, List.map_nil, List.mem_singleton] at h'
      exact Or.inl h'

theorem mem_keys_tripFieldStep (cf : PvDict) (acc : List (String × PyVal))
    (p : String × String) (k : String)
    (h : k ∈ (tripFieldStep cf acc p).map Prod.fst) :
    k = p.2 ∨ k ∈ acc.map Prod.fst := by
  unfold tripFieldStep at h
  repeat' split at h
  all_goals first
    | exact Or.inr h
    | exact mem_keys_dictSet _ _ _ _ h

theorem mem_keys_foldl_trip (cf : PvDict) (pairs : List (String × String)) :
    ∀ (acc : List (String × PyVal)) (k : String),
      k ∈ ((pairs.foldl (tripFieldStep cf) acc).map Prod.fst) →
      k ∈ acc.map Prod.fst ∨ k ∈ pairs.map Prod.snd := by
  induction pairs with
  | nil => exact fun acc k h => Or.inl h
  | cons hd tl ih =>
    intro acc k h
    rw [List.foldl_cons] at h
    rcases ih _ k h with h' | h'
    · rcases mem_keys_tripFieldStep _ _ _ _ h' with rfl | h''
      · exact Or.inr (List.mem_map.mpr ⟨hd, List.mem_cons_self _ _, rfl⟩)
      · exact Or.inl h''
    · exact Or.inr (List.map_cons _ _ _ ▸ List.mem_cons_of_mem _ h')

/-! ## Lemmas: encode direction on a single column -/

theorem create_ghl_singleton (fm : List (String × String)) (col fk : String)
    (v : PyVal) (hfk : dictGet (reverseFieldMap fm) col = .vstr fk)
    (hfk' : fk ≠ "") :
    create_ghl_custom_fields_dict [(col, v)] fm =
      if v.isNone then [] else [(fk, encodeOutboundValue v)] := by
  unfold create_ghl_custom_fields_dict
  rw [List.foldl_cons, List.foldl_nil]
  simp only [hfk]
  by_cases hv : v.isNone = true
  · simp [hv, PyVal.truthy]
  · simp only [Bool.not_eq_true] at hv
    simp [hv, PyVal.truthy, hfk', dictSet]

theorem create_ghl_singleton_present (fm : List (String × String))
    (col fk : String) (v : PyVal)
    (hfk : dictGet (reverseFieldMap fm) col = .vstr fk) (hfk' : fk ≠ "")
    (hvn : v.isNone = false) :
    create_ghl_custom_fields_dict [(col, v)] fm =
      [(fk, encodeOutboundValue v)] := by
  rw [create_ghl_singleton fm col fk v hfk hfk', if_neg]
  simp [hvn]

theorem pyIntTrunc_intCast (n : Int) : pyIntTrunc ((n : Rat)) = n := by
  unfold pyIntTrunc
  rw [Rat.num_intCast, Rat.den_intCast]
  simp

theorem pagedPullLoop_eq_committedPagesTotal :
    ∀ (pages : List (Except String Nat)) (c : Nat),
      pagedPullLoop pages c = c + committedPagesTotal pages := by
  intro pages
  induction pages with
  | nil => intro c; simp [pagedPullLoop, committedPagesTotal]
  | cons hd tl ih =>
    intro c
    cases hd with
    | ok n => rw [pagedPullLoop, committedPagesTotal, ih]; omega
    | error e => rw [pagedPullLoop, committedPagesTotal]; omega

/-! ## The claims -/

/-- C2 counterexample: in the decode direction actually used by the pull
paths, an entry that carries its value only under the type-specific key
`fieldValueString` (declared type STRING) decodes to `None`:
`parse_ghl_custom_fields` never consults the typed key, while the script
helper `get_field_value_by_type` does resolve it.  This refutes the claim
that the decoder tries the type-specific key first. -/
theorem c2_counterexample :
    parse_ghl_custom_fields (.vlist [.vdict [("id", .vstr "f1"),
        ("type", .vstr "STRING"), ("fieldValueString", .vstr "hello")]]) =
      [(.vstr "f1", .vnone)] ∧
    get_field_value_by_type [("id", .vstr "f1"), ("type", .vstr "STRING"),
        ("fieldValueString", .vstr "hello")] = .vstr "hello" :=
  ⟨rfl, rfl⟩

/-- C2 (amended): the typed-key-first, generic-fallback, else-absent
resolution is implemented only by the script helper
`get_field_value_by_type`; the main decoder `parse_ghl_custom_fields`
resolves every entry through the generic `fieldValue` key alone, so an
entry holding its value only under a typed key decodes as absent
(`None`). -/
theorem c2_amended (fd : List (String × PyVal)) (t : String)
    (ht : dictGet fd "type" = .vstr t) (kvs : List (String × PyVal)) :
    ((dictHasKey fd ("fieldValue" ++ pyCapitalize (pyUpper t)) = true →
        get_field_value_by_type fd =
          dictGet fd ("fieldValue" ++ pyCapitalize (pyUpper t))) ∧
      (dictHasKey fd ("fieldValue" ++ pyCapitalize (pyUpper t)) = false →
        dictHasKey fd "fieldValue" = true →
        get_field_value_by_type fd = dictGet fd "fieldValue") ∧
      (dictHasKey fd ("fieldValue" ++ pyCapitalize (pyUpper t)) = false →
        dictHasKey fd "fieldValue" = false →
        get_field_value_by_type fd = .vnone)) ∧
    parse_ghl_custom_fields (.vlist [.vdict kvs]) =
      (if (dictGet kvs "id").truthy then
        [(dictGet kvs "id", dictGet kvs "fieldValue")] else []) := by
  constructor
  · refine ⟨?_, ?_, ?_⟩ <;> intro h1
    · unfold get_field_value_by_type
      rw [ht]
      simp [h1]
    · intro h2
      unfold get_field_value_by_type
      rw [ht]
      simp [h1, h2]
    · intro h2
      unfold get_field_value_by_type
      rw [ht]
      simp [h1, h2]
  · simp only [parse_ghl_custom_fields]
    rw [List.foldl_cons, List.foldl_nil]
    by_cases hid : (dictGet kvs "id").truthy = true
    · simp [hid, pvSet]
    · simp only [Bool.not_eq_true] at hid
      simp [hid]

/-- C2 witness. -/
theorem c2_witness :
    get_field_value_by_type [("type", .vstr "STRING"),
        ("fieldValueString", .vstr "w")] = .vstr "w" ∧
    parse_ghl_custom_fields (.vlist [.vdict [("id", .vstr "g"),
        ("fieldValue", .vstr "w")]]) = [(.vstr "g", .vstr "w")] := by
  have h := c2_amended [("type", .vstr "STRING"),
    ("fieldValueString", .vstr "w")] "STRING" rfl
    [("id", .vstr "g"), ("fieldValue", .vstr "w")]
  exact ⟨(h.1.1 rfl).trans rfl, h.2.trans rfl⟩

/-- C3 counterexample: decoding a STRING-column entry whose value is the
empty string does NOT omit the column — the output map contains the column
key bound to `None` (`mapped[column_name] = str(value) if value else None`),
for both the trip and passenger mappers.  This refutes "the column is
omitted from the result, never set to an empty string or null value". -/
theorem c3_counterexample :
    map_trip_custom_fields [(.vstr "opportunity.destination", .vstr "")] =
      [("destination", .vnone)] ∧
    map_passenger_custom_fields
        [(.vstr "opportunity.passportnumber", .vstr "")] =
      [("passport_number", .vnone)] :=
  ⟨rfl, rfl⟩

/-- C3 (amended): for every mapped STRING/TEXT column, decoding an entry
whose value is present (non-`None`) but falsy (e.g. the empty string)
yields an output map in which that column's key IS present, bound to
`None`; only an absent or `None` value leaves the column out, so a cleared
field is not distinguishable from a field explicitly nulled. -/
theorem c3_amended (fk col : String) (v : PyVal) (hvn : v.isNone = false)
    (hvf : v.truthy = false) :
    ((fk, col) ∈ TRIP_FIELD_MAP →
      tripDateColumns.contains col = false →
      tripIntColumns.contains col = false →
      tripDecimalColumns.contains col = false →
      (col == "is_child") = false →
      map_trip_custom_fields [(.vstr fk, v)] = [(col, .vnone)]) ∧
    ((fk, col) ∈ PASSENGER_FIELD_MAP →
      passengerDateColumns.contains col = false →
      passengerBoolColumns.contains col = false →
      map_passenger_custom_fields [(.vstr fk, v)] = [(col, .vnone)]) := by
  constructor
  · intro hmem h1 h2 h3 h4
    have h1' : col ∉ tripDateColumns := by simpa using h1
    have h2' : col ∉ tripIntColumns := by simpa using h2
    have h3' : col ∉ tripDecimalColumns := by simpa using h3
    have h4' : ¬(col = "is_child") := by simpa using h4
    rw [map_trip_singleton fk col v hmem]
    unfold tripFieldStep
    rw [pvGetStr_singleton]
    simp [hvn, hvf, h1', h2', h3', h4', dictSet]
  · intro hmem h1 h2
    have h1' : col ∉ passengerDateColumns := by simpa using h1
    have h2' : col ∉ passengerBoolColumns := by simpa using h2
    rw [map_passenger_singleton fk col v hmem]
    unfold passengerFieldStep
    rw [pvGetStr_singleton]
    simp [hvn, hvf, h1', h2', dictSet]

/-- C3 witness. -/
theorem c3_witness :
    map_trip_custom_fields [(.vstr "opportunity.lodging", .vstr "")] =
      [("lodging", .vnone)] ∧
    map_passenger_custom_fields [(.vstr "opportunity.mou", .vint 0)] =
      [("mou", .vnone)] := by
  have h1 := c3_amended "opportunity.lodging" "lodging" (.vstr "") rfl rfl
  have h2 := c3_amended "opportunity.mou" "mou" (.vint 0) rfl rfl
  exact ⟨h1.1 (by decide) rfl rfl rfl rfl, h2.2 (by decide) rfl rfl⟩

/-- C4 counterexample: a non-`None`, non-date, non-boolean value is NOT
stringified on encode — an integer-valued column is sent as the integer
itself, not as its decimal string.  This refutes "the stringified value for
every other value type (so numeric values appear as strings)". -/
theorem c4_counterexample :
    create_ghl_custom_fields_dict [("max_passengers", .vint 5)]
        TRIP_FIELD_MAP = [("opportunity.maxpassengers", .vint 5)] ∧
    create_ghl_custom_fields_dict [("max_passengers", .vint 5)]
        TRIP_FIELD_MAP ≠ [("opportunity.maxpassengers", .vstr "5")] := by
  refine ⟨rfl, ?_⟩
  rw [show create_ghl_custom_fields_dict [("max_passengers", .vint 5)]
    TRIP_FIELD_MAP = [("opportunity.maxpassengers", .vint 5)] from rfl]
  simp

/-- C4 (amended): for a column with an outbound mapping (truthy reverse
lookup), a `None` value is omitted entirely; a date value encodes to its
ISO-8601 string; a boolean encodes to the lowercase token `"true"` /
`"false"`; every other value (numbers and strings alike) is passed through
unchanged — numbers are NOT stringified. -/
theorem c4_amended (fm : List (String × String)) (col fk : String)
    (v : PyVal) (hfk : dictGet (reverseFieldMap fm) col = .vstr fk)
    (hfk' : fk ≠ "") :
    (create_ghl_custom_fields_dict [(col, v)] fm =
      if v.isNone then [] else [(fk, encodeOutboundValue v)]) ∧
    (∀ y m d, encodeOutboundValue (.vdate y m d) = .vstr (isoDate y m d)) ∧
    (∀ b, encodeOutboundValue (.vbool b) =
      .vstr (if b then "true" else "false")) ∧
    (∀ n, encodeOutboundValue (.vint n) = .vint n) ∧
    (∀ q, encodeOutboundValue (.vfloat q) = .vfloat q) ∧
    (∀ s, encodeOutboundValue (.vstr s) = .vstr s) :=
  ⟨create_ghl_singleton fm col fk v hfk hfk',
    fun _ _ _ => rfl, fun _ => rfl, fun _ => rfl, fun _ => rfl, fun _ => rfl⟩

/-- C4 witness. -/
theorem c4_witness :
    create_ghl_custom_fields_dict [("arrival_date", .vdate 2025 6 1)]
        TRIP_FIELD_MAP = [("opportunity.arrivaldate", .vstr "2025-06-01")] ∧
    create_ghl_custom_fields_dict [("is_child", .vnone)] TRIP_FIELD_MAP =
      [] := by
  have h1 := c4_amended TRIP_FIELD_MAP "arrival_date"
    "opportunity.arrivaldate" (.vdate 2025 6 1) rfl (by decide)
  have h2 := c4_amended TRIP_FIELD_MAP "is_child" "opportunity.ischild"
    .vnone rfl (by decide)
  exact ⟨h1.1.trans rfl, h2.1.trans rfl⟩

/-- C5 counterexample: the claimed round-trip fails on the edge values the
claim itself names — encoding the integer 0 (or the empty string) and
decoding the wire value yields the column bound to `None`, not the original
value (`int(float(value)) if value else None` / `str(value) if value else
None` map every falsy value to `None`). -/
theorem c5_counterexample :
    tripRoundTrip "max_passengers" (.vint 0) =
      [("max_passengers", .vnone)] ∧
    tripRoundTrip "destination" (.vstr "") = [("destination", .vnone)] ∧
    PyVal.vnone ≠ PyVal.vint 0 :=
  ⟨rfl, rfl, by simp⟩

/-- C5 (amended): encode-then-decode is the identity for each supported
declared type on truthy values: non-empty strings, non-zero integers
(exact — floats are modelled as exact rationals, within floating-point
tolerance in CPython), non-zero decimals, valid calendar dates, and both
booleans; falsy values (0, 0.0, "") instead decode to a `None`-bound
column. -/
theorem c5_amended :
    (∀ s : String, s ≠ "" → tripRoundTrip "destination" (.vstr s) =
      [("destination", .vstr s)]) ∧
    (∀ n : Int, n ≠ 0 → tripRoundTrip "max_passengers" (.vint n) =
      [("max_passengers", .vint n)]) ∧
    (∀ q : Rat, q ≠ 0 → tripRoundTrip "trip_standard_level_pricing"
      (.vfloat q) = [("trip_standard_level_pricing", .vfloat q)]) ∧
    (∀ y m d : Nat, validYmd y m d = true →
      tripRoundTrip "arrival_date" (.vdate y m d) =
        [("arrival_date", .vdate y m d)]) ∧
    (∀ b : Bool, tripRoundTrip "is_child" (.vbool b) =
      [("is_child", .vbool b)]) := by
  refine ⟨?_, ?_, ?_, ?_, ?_⟩
  · intro s hs
    unfold tripRoundTrip
    rw [create_ghl_singleton_present TRIP_FIELD_MAP "destination"
      "opportunity.destination" (.vstr s) rfl (by decide) rfl]
    simp only [encodeOutboundValue, wireToPvDict, List.map_cons,
      List.map_nil]
    rw [map_trip_singleton "opportunity.destination" "destination" _
      (by decide)]
    unfold tripFieldStep
    rw [pvGetStr_singleton]
    simp [PyVal.isNone, PyVal.truthy, hs, pyStr, dictSet, tripDateColumns,
      tripIntColumns, tripDecimalColumns]
  · intro n hn
    unfold tripRoundTrip
    rw [create_ghl_singleton_present TRIP_FIELD_MAP "max_passengers"
      "opportunity.maxpassengers" (.vint n) rfl (by decide) rfl]
    simp only [encodeOutboundValue, wireToPvDict, List.map_cons,
      List.map_nil]
    rw [map_trip_singleton "opportunity.maxpassengers" "max_passengers" _
      (by decide)]
    unfold tripFieldStep
    rw [pvGetStr_singleton]
    simp [PyVal.isNone, PyVal.truthy, hn, pyFloat, pyIntTrunc_intCast,
      dictSet, tripDateColumns, tripIntColumns, tripDecimalColumns]
  · intro q hq
    unfold tripRoundTrip
    rw [create_ghl_singleton_present TRIP_FIELD_MAP
      "trip_standard_level_pricing" "opportunity.tripstandardlevelpricing"
      (.vfloat q) rfl (by decide) rfl]
    simp only [encodeOutboundValue, wireToPvDict, List.map_cons,
      List.map_nil]
    rw [map_trip_singleton "opportunity.tripstandardlevelpricing"
      "trip_standard_level_pricing" _ (by decide)]
    unfold tripFieldStep
    rw [pvGetStr_singleton]
    simp [PyVal.isNone, PyVal.truthy, hq, pyFloat, dictSet, tripDateColumns,
      tripIntColumns, tripDecimalColumns]
  · intro y m d hv
    unfold tripRoundTrip
    rw [create_ghl_singleton_present TRIP_FIELD_MAP "arrival_date"
      "opportunity.arrivaldate" (.vdate y m d) rfl (by decide) rfl]
    simp only [encodeOutboundValue, wireToPvDict, List.map_cons,
      List.map_nil]
    rw [map_trip_singleton "opportunity.arrivaldate" "arrival_date" _
      (by decide)]
    unfold tripFieldStep
    rw [pvGetStr_singleton]
    simp [PyVal.isNone, dateFromValue_isoDate y m d hv, dictSet,
      tripDateColumns]
  · intro b
    cases b <;> rfl

/-- C5 witness. -/
theorem c5_witness :
    tripRoundTrip "destination" (.vstr "Rome") =
      [("destination", .vstr "Rome")] ∧
    tripRoundTrip "max_passengers" (.vint 12) =
      [("max_passengers", .vint 12)] ∧
    tripRoundTrip "trip_standard_level_pricing" (.vfloat (2999 / 2)) =
      [("trip_standard_level_pricing", .vfloat (2999 / 2))] ∧
    tripRoundTrip "arrival_date" (.vdate 2025 6 1) =
      [("arrival_date", .vdate 2025 6 1)] ∧
    tripRoundTrip "is_child" (.vbool true) = [("is_child", .vbool true)] := by
  obtain ⟨h1, h2, h3, h4, h5⟩ := c5_amended
  exact ⟨h1 "Rome" (by decide), h2 12 (by decide),
    h3 (2999 / 2) (by norm_num), h4 2025 6 1 (by decide), h5 true⟩

/-- C9: decoding a raw custom-field list through the trip pull path
(`parse_ghl_custom_fields` then `map_trip_custom_fields`) is a total
function in this embedding — Python exceptions on individual values are
caught inside the branches and modelled by branch-local `Option`s — and
every key of the resulting map is one of the mapped Trip columns, so
entries with unknown, missing, or non-string field ids (and non-dict
entries, and non-list inputs) can never introduce a spurious key. -/
theorem c9_unmapped_field_safety (raw : PyVal) (k : String) (v : PyVal)
    (h : (k, v) ∈ decodeTripFields raw) :
    k ∈ TRIP_FIELD_MAP.map Prod.snd := by
  have hk : k ∈ (decodeTripFields raw).map Prod.fst :=
    List.mem_map.mpr ⟨(k, v), h, rfl⟩
  unfold decodeTripFields map_trip_custom_fields at hk
  rcases mem_keys_foldl_trip _ _ _ _ hk with h' | h'
  · simp at h'
  · exact h'

/-- C9 witness: a list containing a mapped entry, an unmapped entry, an
entry with no id, and a non-dict entry decodes to just the mapped column. -/
theorem c9_witness :
    decodeTripFields (.vlist [.vdict [("id", .vstr "opportunity.lodging"),
        ("fieldValue", .vstr "Hotel Roma")],
      .vdict [("id", .vstr "fld_unknown_xyz"), ("fieldValue", .vstr "junk")],
      .vdict [("fieldValue", .vstr "orphan value")],
      .vstr "not an object"]) = [("lodging", .vstr "Hotel Roma")] ∧
    "lodging" ∈ TRIP_FIELD_MAP.map Prod.snd := by
  refine ⟨rfl, ?_⟩
  exact c9_unmapped_field_safety (.vlist [.vdict [("id",
      .vstr "opportunity.lodging"), ("fieldValue", .vstr "Hotel Roma")],
    .vdict [("id", .vstr "fld_unknown_xyz"), ("fieldValue", .vstr "junk")],
    .vdict [("fieldValue", .vstr "orphan value")],
    .vstr "not an object"]) "lodging" (.vstr "Hotel Roma")
    (List.Mem.head _)

/-- C6 counterexample: a non-2xx response whose non-empty body is NOT valid
JSON does not produce an error carrying the HTTP status — re-evaluating
`response.json()` in the `raise` expression throws a `RequestException`
(requests ≥ 2.27), which the network handler converts to a status-less
`Network error`.  This refutes "the status code is present on the raised
error even when the error body is non-empty and not JSON". -/
theorem c6_counterexample :
    makeRequest (.response ⟨404, "upstream html error page", none⟩) =
      .error ⟨.vstr ("Network error: " ++ jsonDecodeFailureMsg), none,
        none⟩ ∧
    ∀ e, makeRequest (.response ⟨404, "upstream html error page", none⟩) =
      .error e → e.statusCode = none := by
  refine ⟨rfl, ?_⟩
  intro e he
  have : e = ⟨.vstr ("Network error: " ++ jsonDecodeFailureMsg), none,
      none⟩ := by
    have h0 : makeRequest (.response ⟨404, "upstream html error page",
        none⟩) = .error ⟨.vstr ("Network error: " ++ jsonDecodeFailureMsg),
        none, none⟩ := rfl
    rw [h0] at he
    exact (Except.error.inj he).symm
  rw [this]

/-- C6 (amended): on a non-2xx status the client raises a typed error that
carries the HTTP status code together with the parsed JSON body when the
body is valid JSON, and carries the status with no body when the body is
empty; but when the body is non-empty and not valid JSON the raised typed
error carries NO status code (the `response.json()` re-parse in the raise
expression throws a `RequestException` caught by the network handler);
network failures raise the same typed error with no status code. -/
theorem c6_amended :
    (∀ (r : HttpResponse) (j : PyVal),
      (r.statusCode == 200 || r.statusCode == 201 || r.statusCode == 202 ||
        r.statusCode == 204) = false →
      r.jsonBody = some j → r.text ≠ "" →
      ∃ msg, makeRequest (.response r) =
        .error ⟨msg, some r.statusCode, some j⟩) ∧
    (∀ r : HttpResponse,
      (r.statusCode == 200 || r.statusCode == 201 || r.statusCode == 202 ||
        r.statusCode == 204) = false →
      r.text = "" →
      ∃ msg, makeRequest (.response r) =
        .error ⟨msg, some r.statusCode, none⟩) ∧
    (∀ r : HttpResponse,
      (r.statusCode == 200 || r.statusCode == 201 || r.statusCode == 202 ||
        r.statusCode == 204) = false →
      r.jsonBody = none → r.text ≠ "" →
      makeRequest (.response r) =
        .error ⟨.vstr ("Network error: " ++ jsonDecodeFailureMsg), none,
          none⟩) ∧
    (∀ msg, makeRequest (.requestFailure msg) =
      .error ⟨.vstr ("Network error: " ++ msg), none, none⟩) := by
  refine ⟨?_, ?_, ?_, fun msg => rfl⟩
  · intro r j hbad hj ht
    simp only [makeRequest]
    rw [hbad, hj]
    simp only [Bool.false_eq_true, if_false]
    simp [ht]
  · intro r hbad ht
    simp only [makeRequest]
    rw [hbad]
    simp only [Bool.false_eq_true, if_false]
    simp [ht]
  · intro r hbad hj ht
    simp only [makeRequest]
    rw [hbad, hj]
    simp only [Bool.false_eq_true, if_false]
    simp [ht]

/-- C6 witness. -/
theorem c6_witness :
    (∃ msg, makeRequest (.response ⟨422, "json body",
        some (.vdict [("message", .vstr "Unprocessable")])⟩) =
      .error ⟨msg, some 422,
        some (.vdict [("message", .vstr "Unprocessable")])⟩) ∧
    (∃ msg, makeRequest (.response ⟨500, "", none⟩) =
      .error ⟨msg, some 500, none⟩) ∧
    makeRequest (.requestFailure "connection timed out") =
      .error ⟨.vstr "Network error: connection timed out", none, none⟩ := by
  obtain ⟨h1, h2, _, h4⟩ := c6_amended
  exact ⟨h1 ⟨422, "json body",
      some (.vdict [("message", .vstr "Unprocessable")])⟩
      (.vdict [("message", .vstr "Unprocessable")]) (by decide) rfl
      (by decide),
    h2 ⟨500, "", none⟩ (by decide) rfl,
    h4 "connection timed out"⟩

/-- C7: `find_matching_trip` returns no match when the stripped trip-name
string is shorter than 3 characters (even when an exactly equal trip name
exists — the guard precedes every matching pass); otherwise it returns the
first case-insensitive exact name match, else the first trip whose name
contains the string (case-insensitively), else the first trip whose name is
contained in the string, else no match. -/
theorem c7_linker_matching (s : String) (trips : List LinkTrip) :
    ((pyStrip s).length < 3 → find_matching_trip (.vstr s) trips = none) ∧
    (3 ≤ (pyStrip s).length →
      find_matching_trip (.vstr s) trips =
        ((trips.find? (fun tr => tripNameTruthy tr &&
            tripNameLower tr == pyLower (pyStrip s))).orElse (fun _ =>
          ((trips.find? (fun tr => tripNameTruthy tr &&
              strContainsSub (tripNameLower tr)
                (pyLower (pyStrip s)))).orElse (fun _ =>
            trips.find? (fun tr => tripNameTruthy tr &&
              strContainsSub (pyLower (pyStrip s))
                (tripNameLower tr))))))) := by
  by_cases hstr : s = ""
  · subst hstr
    refine ⟨fun _ => rfl, fun h3 => ?_⟩
    exact absurd h3 (by decide)
  · have htr : (PyVal.vstr s).truthy = true := by
      simp [PyVal.truthy, hstr]
    constructor
    · intro hlen
      unfold find_matching_trip
      rw [htr]
      simp only [pyStr, Bool.not_true]
      rw [if_neg Bool.false_ne_true, if_pos hlen]
    · intro hlen
      unfold find_matching_trip
      rw [htr]
      simp only [pyStr, Bool.not_true]
      rw [if_neg Bool.false_ne_true, if_neg (by omega)]
      cases h1 : trips.find? (fun tr => tripNameTruthy tr &&
          tripNameLower tr == pyLower (pyStrip s)) with
      | some tr => simp [Option.orElse]
      | none =>
        cases h2 : trips.find? (fun tr => tripNameTruthy tr &&
            strContainsSub (tripNameLower tr) (pyLower (pyStrip s))) with
        | some tr => simp [Option.orElse]
        | none => simp [Option.orElse]

/-- C7 witness: the guard beats an exact match ("EU" stays unlinked even
with a trip named "EU"); exact match is preferred over a substring match
("Paris" links to "Paris", not "Paris Spring"); partial match works
("Tuscany" links to "Tuscany Food Tour"). -/
theorem c7_witness :
    find_matching_trip (.vstr "EU")
      [⟨1, some "EU Adventure"⟩, ⟨2, some "EU"⟩] = none ∧
    find_matching_trip (.vstr "Paris")
      [⟨1, some "Paris Spring"⟩, ⟨2, some "Paris"⟩] =
      some ⟨2, some "Paris"⟩ ∧
    find_matching_trip (.vstr "Tuscany")
      [⟨1, some "Provence"⟩, ⟨2, some "Tuscany Food Tour"⟩] =
      some ⟨2, some "Tuscany Food Tour"⟩ := by
  refine ⟨(c7_linker_matching "EU" _).1 (by decide), ?_, ?_⟩
  · exact ((c7_linker_matching "Paris" _).2 (by decide)).trans rfl
  · exact ((c7_linker_matching "Tuscany" _).2 (by decide)).trans rfl

/-! ## Lemmas: the field-map rebuild loop -/

theorem foldl_buildFieldMapStep_characterization :
    ∀ (ds : List FieldDescriptor) (rows : List FieldMapRow)
      (missing : List FieldDescriptor),
      (∀ fd ∈ ds, fd.id ≠ "" ∧ fd.fieldKey ≠ "") →
      ds.foldl buildFieldMapStep (rows, missing) =
        (rows ++ ds.filterMap (fun fd => (lookupStaticTable fd.fieldKey).map
          (fun e => ⟨fd.id, fd.fieldKey, e.2.1, e.1, e.2.2⟩)),
         missing ++ ds.filter
          (fun fd => (lookupStaticTable fd.fieldKey).isNone)) := by
  intro ds
  induction ds with
  | nil => intro rows missing _; simp
  | cons hd tl ih =>
    intro rows missing hwf
    have hhd := hwf hd (List.mem_cons_self _ _)
    have htl := fun fd hfd => hwf fd (List.mem_cons_of_mem _ hfd)
    rw [List.foldl_cons]
    simp only [buildFieldMapStep]
    rw [if_neg (by simp [hhd.1, hhd.2])]
    cases hlk : lookupStaticTable hd.fieldKey with
    | some e =>
      obtain ⟨tbl, col, dt⟩ := e
      dsimp only
      rw [ih _ _ htl]
      simp [List.filterMap_cons, List.filter_cons, hlk]
    | none =>
      dsimp only
      rw [ih _ _ htl]
      simp [List.filterMap_cons, List.filter_cons, hlk]

theorem buildFieldMaps_characterization (ds : List FieldDescriptor)
    (hwf : ∀ fd ∈ ds, fd.id ≠ "" ∧ fd.fieldKey ≠ "") :
    buildFieldMaps ds =
      (ds.filterMap (fun fd => (lookupStaticTable fd.fieldKey).map
        (fun e => ⟨fd.id, fd.fieldKey, e.2.1, e.1, e.2.2⟩)),
       ds.filter (fun fd => (lookupStaticTable fd.fieldKey).isNone)) := by
  unfold buildFieldMaps
  rw [foldl_buildFieldMapStep_characterization ds [] [] hwf]
  simp

theorem buildFieldMaps_rows_mapped :
    ∀ (ds : List FieldDescriptor) (rows : List FieldMapRow)
      (missing : List FieldDescriptor),
      (∀ row ∈ rows, lookupStaticTable row.fieldKey =
        some (row.tablename, row.tableColumn, row.dataType)) →
      ∀ row ∈ (ds.foldl buildFieldMapStep (rows, missing)).1,
        lookupStaticTable row.fieldKey =
          some (row.tablename, row.tableColumn, row.dataType) := by
  intro ds
  induction ds with
  | nil => exact fun rows missing h => h
  | cons hd tl ih =>
    intro rows missing hrows
    rw [List.foldl_cons]
    simp only [buildFieldMapStep]
    by_cases hg : (hd.id == "" || hd.fieldKey == "") = true
    · rw [if_pos hg]
      exact ih rows missing hrows
    · rw [if_neg hg]
      cases hlk : lookupStaticTable hd.fieldKey with
      | some e =>
        obtain ⟨tbl, col, dt⟩ := e
        dsimp only
        refine ih _ _ ?_
        intro row hrow
        rcases List.mem_append.mp hrow with h' | h'
        · exact hrows row h'
        · rcases List.mem_singleton.mp h' with rfl
          exact hlk
      | none =>
        dsimp only
        exact ih rows (missing ++ [hd]) hrows

/-- C8: one registry rebuild deletes every existing row first, so a second
rebuild over the same descriptor set is a no-op (the result never depends on
the prior table contents); on well-formed descriptors (non-empty id and
field key, which every CRM descriptor carries) it persists exactly one row
per descriptor whose field key is in the hand-maintained static table —
with that table's column, table name and data type — and reports exactly
the descriptors with no static entry; and every persisted row's field key
resolves in the static table (unapproved fields are never persisted). -/
theorem c8_rebuild_registry (prior : List FieldMapRow)
    (ds : List FieldDescriptor) :
    (rebuildFieldMaps (rebuildFieldMaps prior ds).1 ds =
      rebuildFieldMaps prior ds) ∧
    ((∀ fd ∈ ds, fd.id ≠ "" ∧ fd.fieldKey ≠ "") →
      rebuildFieldMaps prior ds =
        (ds.filterMap (fun fd => (lookupStaticTable fd.fieldKey).map
          (fun e => ⟨fd.id, fd.fieldKey, e.2.1, e.1, e.2.2⟩)),
         ds.filter (fun fd => (lookupStaticTable fd.fieldKey).isNone))) ∧
    (∀ row ∈ (rebuildFieldMaps prior ds).1,
      lookupStaticTable row.fieldKey =
        some (row.tablename, row.tableColumn, row.dataType)) := by
  refine ⟨rfl, ?_, ?_⟩
  · exact fun hwf => buildFieldMaps_characterization ds hwf
  · exact buildFieldMaps_rows_mapped ds [] [] (fun row h => absurd h
      (List.not_mem_nil row))

/-- C8 witness: rebuilding from one mapped and one unmapped descriptor
persists exactly the mapped one and reports the unmapped one. -/
theorem c8_witness :
    rebuildFieldMaps [⟨"stale", "opportunity.old", "c", "t", "string"⟩]
        [⟨"fld_1", "opportunity.passport_number", "Passport Number",
          "TEXT"⟩,
         ⟨"fld_2", "opportunity.mystery_field", "Mystery", "TEXT"⟩] =
      ([⟨"fld_1", "opportunity.passport_number", "passport_number",
          "passengers", "string"⟩],
       [⟨"fld_2", "opportunity.mystery_field", "Mystery", "TEXT"⟩]) := by
  exact ((c8_rebuild_registry
    [⟨"stale", "opportunity.old", "c", "t", "string"⟩]
    [⟨"fld_1", "opportunity.passport_number", "Passport Number", "TEXT"⟩,
     ⟨"fld_2", "opportunity.mystery_field", "Mystery", "TEXT"⟩]).2.1
    (by decide)).trans rfl

theorem applyTripDefaults_fields (today : Nat × Nat × Nat) (t : TripRec) :
    applyTripDefaults today t =
      { startDate :=
          if optDateTruthy t.startDate then t.startDate else some today,
        endDate :=
          if optDateTruthy t.endDate then t.endDate
          else some (addDays ((if optDateTruthy t.startDate then t.startDate
            else some today).getD today) 7),
        maxPassengers :=
          if optIntTruthy t.maxPassengers then t.maxPassengers
          else some 10 } := by
  unfold applyTripDefaults
  by_cases h1 : optDateTruthy t.startDate = true <;>
    by_cases h2 : optDateTruthy t.endDate = true <;>
      by_cases h3 : optIntTruthy t.maxPassengers = true <;>
        simp [h1, h2, h3]

/-- C10: after the defaults block runs on each record of a pulled page,
every upserted Trip has a non-null (indeed truthy) `start_date`, `end_date`
and `max_passengers`, whatever the record looked like after
`from_ghl_opportunity` / `update_from_ghl`; when the CRM supplied no value,
`start_date` is filled with today's date, `end_date` with the (possibly
just defaulted) `start_date` plus 7 days, and `max_passengers` with 10. -/
theorem c10_trip_pull_defaults (today : Nat × Nat × Nat)
    (page : List TripRec) :
    (∀ t ∈ processTripPage today page,
      t.startDate.isSome = true ∧ t.endDate.isSome = true ∧
        optIntTruthy t.maxPassengers = true) ∧
    (∀ t : TripRec, t.startDate = none →
      (applyTripDefaults today t).startDate = some today) ∧
    (∀ t : TripRec, t.endDate = none →
      (applyTripDefaults today t).endDate =
        some (addDays (t.startDate.getD today) 7)) ∧
    (∀ t : TripRec, optIntTruthy t.maxPassengers = false →
      (applyTripDefaults today t).maxPassengers = some 10) := by
  refine ⟨?_, ?_, ?_, ?_⟩
  · intro t ht
    obtain ⟨t0, _, rfl⟩ := List.mem_map.mp ht
    rw [applyTripDefaults_fields]
    refine ⟨?_, ?_, ?_⟩
    · rcases h1 : t0.startDate with _ | s1 <;> simp [optDateTruthy, h1]
    · rcases h2 : t0.endDate with _ | e1 <;> simp [optDateTruthy, h2]
    · rcases h3 : t0.maxPassengers with _ | m1
      · simp [optIntTruthy, h3]
      · by_cases hm : m1 = 0 <;> simp [optIntTruthy, h3, hm]
  · intro t ht
    rw [applyTripDefaults_fields]
    simp [optDateTruthy, ht]
  · intro t ht
    rw [applyTripDefaults_fields]
    rcases h1 : t.startDate with _ | s1 <;>
      simp [optDateTruthy, ht, h1]
  · intro t ht
    rw [applyTripDefaults_fields]
    simp [ht]

/-- C10 witness. -/
theorem c10_witness :
    (∀ t ∈ processTripPage (2026, 10, 12)
        [⟨none, none, none⟩, ⟨some (2025, 6, 1), none, some 5⟩],
      t.startDate.isSome = true ∧ t.endDate.isSome = true ∧
        optIntTruthy t.maxPassengers = true) ∧
    (applyTripDefaults (2026, 10, 12)
      ⟨none, none, some 0⟩).maxPassengers = some 10 ∧
    (applyTripDefaults (2026, 10, 12) ⟨none, none, none⟩).endDate =
      some (2026, 10, 19) := by
  obtain ⟨h1, h2, h3, h4⟩ := c10_trip_pull_defaults (2026, 10, 12)
    [⟨none, none, none⟩, ⟨some (2025, 6, 1), none, some 5⟩]
  refine ⟨h1, ?_, ?_⟩
  · exact (c10_trip_pull_defaults (2026, 10, 12) []).2.2.2
      ⟨none, none, some 0⟩ rfl
  · exact ((c10_trip_pull_defaults (2026, 10, 12) []).2.2.1
      ⟨none, none, none⟩ rfl).trans rfl

/-- C1 counterexample: a full sync in which the contacts stage raises a
transport error (after pipelines and custom fields succeeded) is recorded
as `success`, not `failed` — `sync_contacts` catches every exception,
prints and breaks (lines 214–216), so nothing reaches the orchestration
handler; the exception message is not captured (errors list empty) and the
pages committed before the failure (100 contacts) are retained. -/
theorem c1_counterexample :
    perform_full_sync
      ⟨.ok (2, 13), .ok (3, 49),
        [.ok 100, .error "ConnectionError: timed out"], [.ok 5], .ok 4,
        [.ok 20]⟩ {} =
      ({ pipelines := 2, stages := 13, groups := 3, fields := 49,
         contacts := 100, trips := 5, vendors := 4, passengers := 20 },
       { syncType := "full", status := "success", recordsSynced := 196,
         errors := [] },
       .ok { pipelines := 2, stages := 13, groups := 3, fields := 49,
             contacts := 100, trips := 5, vendors := 4,
             passengers := 20 }) ∧
    "success" ≠ "failed" := by
  exact ⟨rfl, by decide⟩

/-- C1 (amended): only exceptions that actually reach
`perform_full_sync`'s handler — those raised by the pipelines or
custom-fields stages, whose fetches are not wrapped in a stage-local
`try/except` — mark the sync log `failed`, capture the exception message
and re-raise, leaving previously committed work in place; a transport
error during the contacts page loop is swallowed inside `sync_contacts`,
the pages committed before it are retained, and the run completes with
status `success`. -/
theorem c1_full_sync_failure_semantics (env : FullSyncEnv) (db : SyncDb) :
    (∀ e, env.pipelinesFetch = .error e →
      perform_full_sync env db =
        (db, { syncType := "full", status := "failed", recordsSynced := 0,
               errors := [e] }, .error e)) ∧
    (∀ e p s, env.pipelinesFetch = .ok (p, s) →
      env.customFieldsFetch = .error e →
      perform_full_sync env db =
        ({ db with
            pipelines := db.pipelines + p
            stages := db.stages + s },
         { syncType := "full", status := "failed", recordsSynced := 0,
           errors := [e] }, .error e)) ∧
    (∀ p s g f, env.pipelinesFetch = .ok (p, s) →
      env.customFieldsFetch = .ok (g, f) →
      (perform_full_sync env db).2.1.status = "success" ∧
      (perform_full_sync env db).2.1.errors = [] ∧
      (∃ r, (perform_full_sync env db).2.2 = .ok r) ∧
      (perform_full_sync env db).1.contacts =
        db.contacts + committedPagesTotal env.contactPages) := by
  refine ⟨?_, ?_, ?_⟩
  · intro e he
    unfold perform_full_sync
    rw [he]
  · intro e p s hp hf
    unfold perform_full_sync
    rw [hp, hf]
  · intro p s g f hp hf
    unfold perform_full_sync
    rw [hp, hf]
    refine ⟨rfl, rfl, ⟨_, rfl⟩, ?_⟩
    show db.contacts + pagedPullLoop env.contactPages 0 =
      db.contacts + committedPagesTotal env.contactPages
    rw [pagedPullLoop_eq_committedPagesTotal]
    omega

/-- C1 witness. -/
theorem c1_witness :
    perform_full_sync
      ⟨.error "HTTPError 500 fetching pipelines", .ok (3, 49), [.ok 100],
        [.ok 5], .ok 4, [.ok 20]⟩ {} =
      ({}, { syncType := "full", status := "failed", recordsSynced := 0,
             errors := ["HTTPError 500 fetching pipelines"] },
       .error "HTTPError 500 fetching pipelines") ∧
    perform_full_sync
      ⟨.ok (2, 13), .error "HTTPError 500 fetching custom fields",
        [.ok 100], [.ok 5], .ok 4, [.ok 20]⟩ {} =
      ({ pipelines := 2, stages := 13 },
       { syncType := "full", status := "failed", recordsSynced := 0,
         errors := ["HTTPError 500 fetching custom fields"] },
       .error "HTTPError 500 fetching custom fields") := by
  constructor
  · exact (c1_full_sync_failure_semantics
      ⟨.error "HTTPError 500 fetching pipelines", .ok (3, 49), [.ok 100],
        [.ok 5], .ok 4, [.ok 20]⟩ {}).1 "HTTPError 500 fetching pipelines"
      rfl
  · exact ((c1_full_sync_failure_semantics
      ⟨.ok (2, 13), .error "HTTPError 500 fetching custom fields",
        [.ok 100], [.ok 5], .ok 4, [.ok 20]⟩ {}).2.1
      "HTTPError 500 fetching custom fields" 2 13 rfl rfl).trans rfl

end TripBuilder
